import Mathlib

/-!
  Verification of the niri-cursor cursor subsystem (vector cursor engine,
  raster cursor loader and the manager around them).

  Modelling conventions:
  * Rust `HashMap` lookups are modelled by association lists queried with
    `lookupAssoc` (first matching key wins; the configs keep keys unique).
  * `f32` arithmetic is modelled by exact rational arithmetic over `ℚ`.
    The transcendental `f32` primitives (`sin`, `2^x` via `powf`, `π`)
    that only the `Elastic` easing curve uses are supplied as an explicit
    `FloatOps` parameter; every statement below holds for all values of
    those primitives.
  * Machine-integer overflow is modelled with an explicit `% 2 ^ 32` where
    the source can overflow a `u32` counter.
  * External crates are modelled as explicit oracle parameters: file reads
    (`String → Option String`), usvg document parsing, serde_json parsing.
    smithay's `Point::to_physical` multiplies each coordinate by the scale
    factor, and is embedded directly as `pointToPhysical`.
  * Rust functions returning `anyhow::Result` are modelled with
    `Except Unit` (the error payload is never inspected by the code).
-/

/-- Association-list lookup; models `HashMap::get` (keys are unique). -/
def lookupAssoc {α β : Type} [DecidableEq α] : α → List (α × β) → Option β
  | _, [] => none
  | k, (k', v) :: rest => if k' = k then some v else lookupAssoc k rest

/-! ## src/cursor/vector/config.rs -/

inductive CursorFormat where
  | Svg
  | Lottie
  deriving DecidableEq

inductive TransitionType where
  | Morph
  | CrossFade
  | Transform
  | Lottie
  deriving DecidableEq

inductive EasingFunction where
  | Linear
  | EaseIn
  | EaseOut
  | EaseInOut
  | EaseInQuad
  | EaseOutQuad
  | EaseInOutQuad
  | Elastic
  deriving DecidableEq

structure CursorDefinition where
  format : CursorFormat
  file : String
  hotspot : Option (Int × Int)
  loop_mode : Option String
  deriving DecidableEq

structure TransitionConfig where
  transition_type : TransitionType
  duration_ms : Nat
  easing : EasingFunction
  file : Option String
  deriving DecidableEq

structure CursorThemeConfig where
  cursors : List (String × CursorDefinition)
  transitions : List (String × TransitionConfig)
  deriving DecidableEq

/-- `CursorThemeConfig::get_cursor`. -/
def CursorThemeConfig.get_cursor (c : CursorThemeConfig) (cursor_id : String) :
    Option CursorDefinition :=
  lookupAssoc cursor_id c.cursors

/-- `CursorThemeConfig::get_transition`: looks up the literal key
`"{from_id}->{to_id}"`. -/
def CursorThemeConfig.get_transition (c : CursorThemeConfig) (from_id to_id : String) :
    Option TransitionConfig :=
  lookupAssoc (from_id ++ ("->") ++ to_id) c.transitions

/-! ## src/cursor/vector/types.rs -/

inductive LoopMode where
  | Once
  | Loop
  | Bounce
  deriving DecidableEq

inductive TransitionState where
  | Static
  | Transitioning (from_id to_id : String) (progress : ℚ)
  | Animated (cursor_id : String) (start_time_ms : Nat) (loop_mode : LoopMode)
  deriving DecidableEq

/-! ## src/cursor/vector/animator.rs -/

/-- The `f32` transcendental primitives used by the `Elastic` easing curve,
supplied as parameters of the model. -/
structure FloatOps where
  sin : ℚ → ℚ
  powf2 : ℚ → ℚ
  pi : ℚ

/-- `f32::clamp(lo, hi)`. -/
def clampQ (t lo hi : ℚ) : ℚ :=
  if t < lo then lo else if hi < t then hi else t

/-- The easing match arms of `CursorAnimator::apply_easing`, evaluated on the
already-clamped input. -/
def easingCurve (ops : FloatOps) (t : ℚ) : EasingFunction → ℚ
  | .Linear => t
  | .EaseIn => t * t
  | .EaseOut => 1 - (1 - t) * (1 - t)
  | .EaseInOut => if t < 1 / 2 then 2 * t * t else 1 - 2 * (1 - t) ^ 2
  | .EaseInQuad => t * t
  | .EaseOutQuad => 1 - (1 - t) ^ 2
  | .EaseInOutQuad => if t < 1 / 2 then 2 * t * t else 1 - 2 * (1 - t) ^ 2
  | .Elastic =>
    let c4 := 2 * ops.pi / 3
    if t = 0 then 0
    else if t = 1 then 1
    else ops.powf2 (-10 * t) * ops.sin ((t * 10 - 3 / 4) * c4) + 1

/-- `CursorAnimator::apply_easing`: clamps the input to `[0, 1]`, then
evaluates the selected curve. -/
def CursorAnimator.apply_easing (ops : FloatOps) (t : ℚ) (easing : EasingFunction) : ℚ :=
  easingCurve ops (clampQ t 0 1) easing

/-- The `from_id` computation at the top of `CursorAnimator::set_cursor`:
the current target of the animator state. -/
def currentTarget : TransitionState → Option String
  | .Static => none
  | .Animated cursor_id _ _ => some cursor_id
  | .Transitioning _ to_id _ => some to_id

/-- The loop-mode parsing match used by `CursorAnimator::new` and
`CursorAnimator::set_cursor`. -/
def parseLoopMode : Option String → LoopMode
  | some ("once") => .Once
  | some ("loop") => .Loop
  | some ("bounce") => .Bounce
  | _ => .Loop

/-- `CursorAnimator::new`: the initial animator state for a config
(`Animated` on the `"default"` cursor when it is defined, else `Static`). -/
def CursorAnimator.new_state (config : CursorThemeConfig) : TransitionState :=
  match config.get_cursor ("default") with
  | some default_def => .Animated ("default") 0 (parseLoopMode default_def.loop_mode)
  | none => .Static

/-- `CursorAnimator::set_cursor`: returns the `Result` and the new state
(the `RefCell` interior mutability is modelled by explicit state passing). -/
def CursorAnimator.set_cursor (config : CursorThemeConfig) (state : TransitionState)
    (cursor_id : String) : Except Unit Unit × TransitionState :=
  let by_definition : Except Unit Unit × TransitionState :=
    match config.get_cursor cursor_id with
    | some cursor_def => (.ok (), .Animated cursor_id 0 (parseLoopMode cursor_def.loop_mode))
    | none => (.ok (), .Static)
  match currentTarget state with
  | some fr =>
    if fr = cursor_id then (.ok (), state)
    else if (config.get_transition fr cursor_id).isSome then
      (.ok (), .Transitioning fr cursor_id 0)
    else by_definition
  | none => by_definition

/-- `CursorAnimator::update`. -/
def CursorAnimator.update (config : CursorThemeConfig) (ops : FloatOps)
    (state : TransitionState) (elapsed_ms : Nat) : TransitionState :=
  match state with
  | .Transitioning from_id to_id progress =>
    match config.get_transition from_id to_id with
    | none => .Static
    | some c =>
      let duration_ms := c.duration_ms
      let delta_ms := elapsed_ms
      let new_progress := progress + (delta_ms : ℚ) / (duration_ms : ℚ)
      if 1 ≤ new_progress then
        .Animated to_id 0 .Loop
      else
        .Transitioning from_id to_id (CursorAnimator.apply_easing ops new_progress c.easing)
  | .Animated cursor_id start_time_ms loop_mode =>
    match config.get_cursor cursor_id with
    | some cursor_def =>
      if cursor_def.format = CursorFormat.Lottie then
        .Animated cursor_id ((start_time_ms + elapsed_ms) % 2 ^ 32) loop_mode
      else
        .Animated cursor_id start_time_ms loop_mode
    | none => .Animated cursor_id start_time_ms loop_mode
  | .Static => .Static

/-! ### Helper lemmas about `set_cursor` -/

lemma set_cursor_noop (config : CursorThemeConfig) (state : TransitionState)
    (cursor_id : String) (h : currentTarget state = some cursor_id) :
    CursorAnimator.set_cursor config state cursor_id = (.ok (), state) := by
  unfold CursorAnimator.set_cursor
  simp [h]

lemma set_cursor_target (config : CursorThemeConfig) (state : TransitionState)
    (cursor_id : String) :
    currentTarget (CursorAnimator.set_cursor config state cursor_id).2 = some cursor_id ∨
      ((CursorAnimator.set_cursor config state cursor_id).2 = .Static ∧
        config.get_cursor cursor_id = none) := by
  unfold CursorAnimator.set_cursor
  rcases hst : currentTarget state with _ | fr
  · rcases hc : config.get_cursor cursor_id with _ | d
    · right
      simp [hc]
    · left
      simp [hc, currentTarget]
  · by_cases hfr : fr = cursor_id
    · subst hfr
      left
      simp [hst]
    · by_cases htr : (config.get_transition fr cursor_id).isSome
      · left
        simp [hfr, htr, currentTarget]
      · rcases hc : config.get_cursor cursor_id with _ | d
        · right
          simp [hfr, htr, hc]
        · left
          simp [hfr, htr, hc, currentTarget]

/-! ### Claim theorems about the animator -/

/-- C4: for every animator state and every cursor id, calling `set_cursor(id)`
twice in a row produces no state change on the second call: the second call
leaves the state exactly as the first call left it. -/
theorem set_cursor_idempotent (config : CursorThemeConfig) (state : TransitionState)
    (cursor_id : String) :
    (CursorAnimator.set_cursor config
        (CursorAnimator.set_cursor config state cursor_id).2 cursor_id).2 =
      (CursorAnimator.set_cursor config state cursor_id).2 := by
  rcases set_cursor_target config state cursor_id with h | ⟨h1, h2⟩
  · rw [set_cursor_noop config _ _ h]
  · rw [h1]
    unfold CursorAnimator.set_cursor
    simp [currentTarget, h2]

/-- C10: `set_cursor` is total in its error channel: for every state and
every cursor id (defined, undefined or empty) the returned `Result` is
`Ok(())`; a caller can never observe a `set_cursor` failure. -/
theorem set_cursor_always_ok (config : CursorThemeConfig) (state : TransitionState)
    (cursor_id : String) :
    (CursorAnimator.set_cursor config state cursor_id).1 = .ok () := by
  unfold CursorAnimator.set_cursor
  rcases hst : currentTarget state with _ | fr
  · rcases hc : config.get_cursor cursor_id with _ | d <;> simp [hc]
  · by_cases hfr : fr = cursor_id
    · simp [hfr]
    · by_cases htr : (config.get_transition fr cursor_id).isSome
      · simp [hfr, htr]
      · rcases hc : config.get_cursor cursor_id with _ | d <;> simp [hfr, htr, hc]

/-- C3: on a `Transitioning{from, to, progress}` state, if the transition
entry `"from->to"` is present and `progress + elapsed/duration` reaches 1,
`update` lands in exactly `Animated{to, 0, Loop}` (always `Loop`); and if the
transition entry is absent, `update` lands in `Static`. -/
theorem update_transitioning_cases (config : CursorThemeConfig) (ops : FloatOps)
    (from_id to_id : String) (progress : ℚ) (elapsed_ms : Nat) (tc : TransitionConfig) :
    (config.get_transition from_id to_id = some tc →
      1 ≤ progress + (elapsed_ms : ℚ) / (tc.duration_ms : ℚ) →
      CursorAnimator.update config ops (.Transitioning from_id to_id progress) elapsed_ms =
        .Animated to_id 0 .Loop) ∧
    (config.get_transition from_id to_id = none →
      CursorAnimator.update config ops (.Transitioning from_id to_id progress) elapsed_ms =
        .Static) := by
  constructor
  · intro htr hp
    unfold CursorAnimator.update
    simp [htr, hp]
  · intro htr
    unfold CursorAnimator.update
    simp [htr]

/-- C8: every easing curve among Linear, EaseIn, EaseOut, EaseInOut, Elastic
maps 0 to 0 and 1 to 1; the input is clamped to `[0, 1]` before evaluation
(below 0 the value equals the value at 0, above 1 it equals the value at 1);
and at `t = 1/2` EaseInOut evaluates to `1/2`, the common value of its two
branches. -/
theorem easing_endpoints (ops : FloatOps) :
    (∀ e, e ∈ [EasingFunction.Linear, EasingFunction.EaseIn, EasingFunction.EaseOut,
        EasingFunction.EaseInOut, EasingFunction.Elastic] →
      CursorAnimator.apply_easing ops 0 e = 0 ∧ CursorAnimator.apply_easing ops 1 e = 1) ∧
    (∀ (t : ℚ) e, t < 0 →
      CursorAnimator.apply_easing ops t e = CursorAnimator.apply_easing ops 0 e) ∧
    (∀ (t : ℚ) e, 1 < t →
      CursorAnimator.apply_easing ops t e = CursorAnimator.apply_easing ops 1 e) ∧
    (CursorAnimator.apply_easing ops (1 / 2) EasingFunction.EaseInOut = 1 / 2 ∧
      2 * (1 / 2 : ℚ) * (1 / 2) = 1 - 2 * (1 - 1 / 2 : ℚ) ^ 2) := by
  refine ⟨?_, ?_, ?_, ?_, ?_⟩
  · intro e he
    fin_cases he <;> constructor <;>
      simp [CursorAnimator.apply_easing, easingCurve, clampQ] <;> norm_num
  · intro t e ht
    have hc : clampQ t 0 1 = 0 := by
      unfold clampQ
      rw [if_pos ht]
    have hc0 : clampQ 0 0 1 = (0 : ℚ) := by norm_num [clampQ]
    unfold CursorAnimator.apply_easing
    rw [hc, hc0]
  · intro t e ht
    have hc : clampQ t 0 1 = 1 := by
      unfold clampQ
      rw [if_neg (by linarith), if_pos ht]
    have hc1 : clampQ 1 0 1 = (1 : ℚ) := by norm_num [clampQ]
    unfold CursorAnimator.apply_easing
    rw [hc, hc1]
  · norm_num [CursorAnimator.apply_easing, easingCurve, clampQ]
  · norm_num

/-- Witness for C3 at concrete inputs. -/
def c1Config : CursorThemeConfig :=
  { cursors := [(("default"), ⟨.Svg, ("default.svg"), some (4, 4), none⟩),
                (("wait"), ⟨.Lottie, ("wait.json"), none, none⟩)],
    transitions := [(("default->wait"), ⟨.Morph, 300, .EaseInOut, none⟩)] }

/-- A concrete instantiation of the transcendental primitives (their values
are irrelevant to every claim below). -/
def opsZero : FloatOps :=
  { sin := fun _ => 0, powf2 := fun _ => 0, pi := 0 }

theorem update_transitioning_cases_witness :
    CursorAnimator.update c1Config opsZero
        (.Transitioning ("default") ("wait") (1 / 2)) 200 =
      .Animated ("wait") 0 .Loop ∧
    CursorAnimator.update c1Config opsZero
        (.Transitioning ("wait") ("default") 0) 5 = .Static :=
  ⟨(update_transitioning_cases c1Config opsZero ("default") ("wait") (1 / 2) 200
      ⟨.Morph, 300, .EaseInOut, none⟩).1 (by decide) (by norm_num),
   (update_transitioning_cases c1Config opsZero ("wait") ("default") 0 5
      ⟨.Morph, 300, .EaseInOut, none⟩).2 (by decide)⟩

theorem easing_endpoints_witness :
    (CursorAnimator.apply_easing opsZero 0 EasingFunction.Elastic = 0 ∧
      CursorAnimator.apply_easing opsZero 1 EasingFunction.Elastic = 1) ∧
    CursorAnimator.apply_easing opsZero (-1) EasingFunction.Elastic =
      CursorAnimator.apply_easing opsZero 0 EasingFunction.Elastic ∧
    CursorAnimator.apply_easing opsZero 2 EasingFunction.Linear =
      CursorAnimator.apply_easing opsZero 1 EasingFunction.Linear :=
  ⟨(easing_endpoints opsZero).1 EasingFunction.Elastic (by decide),
   (easing_endpoints opsZero).2.1 (-1) EasingFunction.Elastic (by norm_num),
   (easing_endpoints opsZero).2.2.1 2 EasingFunction.Linear (by norm_num)⟩

/-! ### C1: the §8 scenario -/

/-- The animator state after `set_cursor("wait")` followed by three
`update(100)` calls, starting from the initial state for `c1Config`. -/
def c1Final (ops : FloatOps) : TransitionState :=
  let s0 := CursorAnimator.new_state c1Config
  let s1 := (CursorAnimator.set_cursor c1Config s0 ("wait")).2
  let s2 := CursorAnimator.update c1Config ops s1 100
  let s3 := CursorAnimator.update c1Config ops s2 100
  CursorAnimator.update c1Config ops s3 100

lemma c1_transition_lookup :
    c1Config.get_transition ("default") ("wait") =
      some ⟨.Morph, 300, .EaseInOut, none⟩ := rfl

lemma c1_update_step (ops : FloatOps) (p q : ℚ)
    (hlt : ¬ 1 ≤ p + (100 : ℚ) / 300)
    (heas : CursorAnimator.apply_easing ops (p + (100 : ℚ) / 300) .EaseInOut = q) :
    CursorAnimator.update c1Config ops
        (.Transitioning ("default") ("wait") p) 100 =
      .Transitioning ("default") ("wait") q := by
  simp only [CursorAnimator.update]
  rw [c1_transition_lookup]
  have h100 : ((100 : Nat) : ℚ) = (100 : ℚ) := by norm_num
  have h300 : ((300 : Nat) : ℚ) = (300 : ℚ) := by norm_num
  simp only [h100, h300]
  rw [if_neg hlt, heas]

lemma c1_ease1 (ops : FloatOps) :
    CursorAnimator.apply_easing ops ((0 : ℚ) + 100 / 300) .EaseInOut = 2 / 9 := by
  norm_num [CursorAnimator.apply_easing, easingCurve, clampQ]

lemma c1_ease2 (ops : FloatOps) :
    CursorAnimator.apply_easing ops ((2 / 9 : ℚ) + 100 / 300) .EaseInOut = 49 / 81 := by
  norm_num [CursorAnimator.apply_easing, easingCurve, clampQ]

lemma c1_ease3 (ops : FloatOps) :
    CursorAnimator.apply_easing ops ((49 / 81 : ℚ) + 100 / 300) .EaseInOut = 6511 / 6561 := by
  norm_num [CursorAnimator.apply_easing, easingCurve, clampQ]

lemma c1Final_eq (ops : FloatOps) :
    c1Final ops =
      TransitionState.Transitioning ("default") ("wait") (6511 / 6561) := by
  show CursorAnimator.update c1Config ops
      (CursorAnimator.update c1Config ops
        (CursorAnimator.update c1Config ops
          ((CursorAnimator.set_cursor c1Config (CursorAnimator.new_state c1Config) ("wait")).2)
          100) 100) 100 = _
  rw [show (CursorAnimator.set_cursor c1Config (CursorAnimator.new_state c1Config) ("wait")).2 =
        .Transitioning ("default") ("wait") 0 from rfl]
  rw [c1_update_step ops 0 (2 / 9) (by norm_num) (c1_ease1 ops)]
  rw [c1_update_step ops (2 / 9) (49 / 81) (by norm_num) (c1_ease2 ops)]
  rw [c1_update_step ops (49 / 81) (6511 / 6561) (by norm_num) (c1_ease3 ops)]

/-- C1 fails on the code: after `set_cursor("wait")` and three `update(100)`
calls the animator is not in `Animated{"wait", 0, Loop}`. -/
theorem c1_scenario_counterexample :
    c1Final opsZero ≠ TransitionState.Animated ("wait") 0 LoopMode.Loop := by
  rw [c1Final_eq]
  intro h
  exact TransitionState.noConfusion h

/-- C1 (amended): because `update` stores the eased value back into
`progress`, the three `update(100)` calls accumulate the eased progresses
`1/3 → 2/9 → 49/81 → 6511/6561 < 1` and the animator is still in
`Transitioning{"default", "wait", 6511/6561}`; the transition has not
completed. This holds for every value of the transcendental primitives. -/
theorem c1_scenario_amended (ops : FloatOps) :
    c1Final ops =
      TransitionState.Transitioning ("default") ("wait") (6511 / 6561) :=
  c1Final_eq ops

/-! ## src/cursor.rs — raster (`XCursor`) side -/

/-- `xcursor::parser::Image`. -/
structure Image where
  size : Nat
  width : Nat
  height : Nat
  xhot : Nat
  yhot : Nat
  delay : Nat
  pixels_rgba : List Nat
  pixels_argb : List Nat
  deriving DecidableEq

structure XCursor where
  images : List Image
  animation_duration : Nat
  deriving DecidableEq

/-- The accumulation loop inside `XCursor::frame`: `res` stays 0 when the
loop exhausts without a break (unreachable when `millis < total`). -/
def walkFrames : List Image → Nat → Nat → Nat
  | [], _, _ => 0
  | img :: rest, millis, i =>
    if millis < img.delay then i else walkFrames rest (millis - img.delay) (i + 1)

/-- `XCursor::frame`: the selected frame index together with that frame
(the source indexes `self.images[res]`, which exists for the non-empty
frame lists the loader produces). -/
def XCursor.frame (c : XCursor) (millis : Nat) : Nat × Option Image :=
  if c.animation_duration = 0 then (0, c.images.get? 0)
  else
    let m := millis % c.animation_duration
    let res := walkFrames c.images m 0
    (res, c.images.get? res)

/-- The `animation_duration` fold in `CursorManager::load_xcursor`. -/
def sumDelays (images : List Image) : Nat :=
  images.foldl (fun acc img => acc + img.delay) 0

/-- `XCursor::is_animated_cursor`. -/
def XCursor.is_animated_cursor (c : XCursor) : Bool :=
  1 < c.images.length

/-- C5: for every `XCursor` with a non-empty frame list whose
`animation_duration` is the sum of the frame delays: when the total duration
is 0, `frame` returns frame 0 for every `millis`; otherwise `frame` is
periodic with period `animation_duration`, the frame being found by walking
the frames in order accumulating delays. -/
theorem xcursor_frame_periodic (c : XCursor) (_h1 : c.images ≠ [])
    (_h2 : c.animation_duration = sumDelays c.images) :
    (c.animation_duration = 0 → ∀ millis, c.frame millis = (0, c.images.get? 0)) ∧
    (∀ millis, c.frame millis = c.frame (millis + c.animation_duration)) := by
  constructor
  · intro h0 millis
    simp [XCursor.frame, h0]
  · intro millis
    by_cases h0 : c.animation_duration = 0
    · simp [XCursor.frame, h0]
    · simp [XCursor.frame, h0, Nat.add_mod_right]

/-- Witness data for C5: a two-frame cursor with delays 5 and 3, and a
single-frame cursor with total duration 0. -/
def xcursorTwoFrames : XCursor :=
  { images := [⟨32, 32, 32, 1, 1, 5, [], []⟩, ⟨32, 32, 32, 1, 1, 3, [], []⟩],
    animation_duration := 8 }

def xcursorStaticFrame : XCursor :=
  { images := [⟨32, 64, 64, 1, 1, 0, [], []⟩],
    animation_duration := 0 }

theorem xcursor_frame_periodic_witness :
    xcursorTwoFrames.frame 6 =
      xcursorTwoFrames.frame (6 + xcursorTwoFrames.animation_duration) ∧
    xcursorStaticFrame.frame 12345 = (0, xcursorStaticFrame.images.get? 0) :=
  ⟨(xcursor_frame_periodic xcursorTwoFrames (by decide) (by decide)).2 6,
   (xcursor_frame_periodic xcursorStaticFrame (by decide) (by decide)).1 (by decide) 12345⟩

/-! ## src/cursor.rs — `CursorManager::get_cursor_with_name` -/

/-- The subset of smithay's `CursorIcon` variants this repository mentions. -/
inductive CursorIcon where
  | Default
  | AllScroll
  | Text
  | Wait
  | Progress
  | Crosshair
  | NwResize
  | Pointer
  | Grab
  | Grabbing
  | NotAllowed
  | Help
  | Copy
  | Alias
  | Cell
  | VerticalText
  | ContextMenu
  | NoDrop
  | WResize
  | NResize
  | NeResize
  | SwResize
  | SeResize
  | ZoomIn
  | ZoomOut
  deriving DecidableEq

/-- The `named_cursor_cache` of `CursorManager`:
`(icon, scale) → Option<Rc<XCursor>>` (a cached miss is `some none`). -/
def XCursorCache := List ((CursorIcon × Int) × Option XCursor)

/-- `CursorManager::fallback_cursor`: the single built-in 64×64 frame with
hotspot (1, 1), zero delay, and the embedded pixel data (a parameter). -/
def fallback_cursor (fallbackData : List Nat) : XCursor :=
  { images := [⟨32, 64, 64, 1, 1, 0, fallbackData, []⟩],
    animation_duration := 0 }

/-- The alternate-name retry loop inside `get_cursor_with_name`: try each
alternate in order, keeping the first success (the loop's final error value
carries no information, so failures collapse to `none`). -/
def tryAltNames (load : String → Int → Option XCursor) (size : Int) :
    List String → Option XCursor
  | [] => none
  | n :: rest =>
    match load n size with
    | some c => some c
    | none => tryAltNames load size rest

/-- `CursorManager::get_cursor_with_name`, with the theme lookup
(`load_xcursor`, which does file system reads) and smithay's
`CursorIcon::name`/`alt_names` tables supplied as oracles; returns the
result together with the updated cache (`entry().or_insert_with_key`). -/
def get_cursor_with_name (load : String → Int → Option XCursor)
    (iconName : CursorIcon → String) (altNames : CursorIcon → List String)
    (fallbackData : List Nat) (msize : Nat) (cache : XCursorCache)
    (icon : CursorIcon) (scale : Int) : Option XCursor × XCursorCache :=
  match lookupAssoc (icon, scale) cache with
  | some v => (v, cache)
  | none =>
    let size : Int := (msize : Int) * scale
    let cursor := load (iconName icon) size
    let cursor :=
      match cursor with
      | some c => some c
      | none => tryAltNames load size (altNames icon)
    let cursor :=
      if icon = CursorIcon.Default ∧ cursor = none then
        some (fallback_cursor fallbackData)
      else cursor
    (cursor, ((icon, scale), cursor) :: cache)

/-- The invariant that the named-cursor cache never records a miss for the
default icon (every entry the code inserts for `Default` is a hit). -/
def CacheOK (cache : XCursorCache) : Prop :=
  ∀ s : Int, lookupAssoc (CursorIcon.Default, s) cache ≠ some none

lemma tryAltNames_none (load : String → Int → Option XCursor) (size : Int)
    (ns : List String) (h : ∀ n ∈ ns, load n size = none) :
    tryAltNames load size ns = none := by
  induction ns with
  | nil => rfl
  | cons n rest ih =>
    have hn : load n size = none := h n (by simp)
    simp only [tryAltNames, hn]
    exact ih fun m hm => h m (by simp [hm])

lemma default_entry_ne_none (fallbackData : List Nat) (p : Prop) [Decidable p]
    (hp : p) (x : Option XCursor) :
    (if p ∧ x = none then some (fallback_cursor fallbackData) else x) ≠ none := by
  rcases x with _ | c <;> simp [hp]

/-- C6: for every scale, `get_cursor_with_name(Default, scale)` never
returns `None` (even when no icon loads, the built-in fallback is used),
while for a non-`Default` icon whose primary and alternate names all fail
to load (and which is not cached), the lookup returns `None`; moreover the
default-never-misses cache invariant is preserved by every call. -/
theorem get_cursor_with_name_default_total (load : String → Int → Option XCursor)
    (iconName : CursorIcon → String) (altNames : CursorIcon → List String)
    (fallbackData : List Nat) (msize : Nat) (cache : XCursorCache)
    (icon : CursorIcon) (scale : Int) (hOK : CacheOK cache) :
    (get_cursor_with_name load iconName altNames fallbackData msize cache
        CursorIcon.Default scale).1 ≠ none ∧
    (icon ≠ CursorIcon.Default →
      lookupAssoc (icon, scale) cache = none →
      load (iconName icon) ((msize : Int) * scale) = none →
      (∀ n ∈ altNames icon, load n ((msize : Int) * scale) = none) →
      (get_cursor_with_name load iconName altNames fallbackData msize cache
          icon scale).1 = none) ∧
    CacheOK (get_cursor_with_name load iconName altNames fallbackData msize cache
        icon scale).2 := by
  refine ⟨?_, ?_, ?_⟩
  · unfold get_cursor_with_name
    rcases hl : lookupAssoc (CursorIcon.Default, scale) cache with _ | v
    · simp only [hl]
      exact default_entry_ne_none fallbackData True trivial _
    · simp only [hl]
      have h := hOK scale
      rw [hl] at h
      intro hv
      exact h (congrArg some hv)
  · intro hicon hcache hload halt
    unfold get_cursor_with_name
    rw [hcache]
    simp only [hload]
    rw [tryAltNames_none load _ _ halt]
    simp [hicon]
  · unfold get_cursor_with_name
    rcases hl : lookupAssoc (icon, scale) cache with _ | v
    · simp only [hl]
      intro s
      simp only [lookupAssoc]
      by_cases hkey : (icon, scale) = (CursorIcon.Default, s)
      · rw [if_pos hkey]
        have hicon : icon = CursorIcon.Default := congrArg Prod.fst hkey
        subst hicon
        intro hcontra
        exact default_entry_ne_none fallbackData _ rfl _ (Option.some.inj hcontra)
      · rw [if_neg hkey]
        exact hOK s
    · simp only [hl]
      exact hOK

/-- Witness for C6: with a theme that loads nothing, `Default` still
resolves (to the fallback) and `Progress` resolves to `None`. -/
def loadNothing : String → Int → Option XCursor := fun _ _ => none

theorem get_cursor_with_name_default_total_witness :
    (get_cursor_with_name loadNothing (fun _ => ("x")) (fun _ => []) [] 24 []
        CursorIcon.Default 1).1 ≠ none ∧
    (get_cursor_with_name loadNothing (fun _ => ("x")) (fun _ => []) [] 24 []
        CursorIcon.Progress 1).1 = none :=
  ⟨(get_cursor_with_name_default_total loadNothing (fun _ => ("x")) (fun _ => [])
      [] 24 [] CursorIcon.Progress 1 (fun _ h => Option.noConfusion h)).1,
   (get_cursor_with_name_default_total loadNothing (fun _ => ("x")) (fun _ => [])
      [] 24 [] CursorIcon.Progress 1 (fun _ h => Option.noConfusion h)).2.1
     (by decide) rfl rfl (fun n hn => absurd hn (List.not_mem_nil n))⟩

/-! ## src/cursor/vector/renderer — shared pieces -/

/-- smithay `Point::<i32, Logical>::to_physical(scale)`: multiplies each
coordinate by the scale factor (embedded from the smithay dependency). -/
def pointToPhysical (p : Int × Int) (scale : Int) : Int × Int :=
  (p.1 * scale, p.2 * scale)

/-- `RenderedFrameData`: the pixel buffer (bytes, Argb8888 channel order)
plus the parameters handed to `MemoryRenderBuffer::from_slice`, and the
hotspot in physical coordinates. -/
structure RenderedFrameData where
  pixels : List Nat
  width : Int
  height : Int
  scale : Int
  hotspot : Int × Int
  deriving DecidableEq

/-- Truncation toward zero: `f32 as i32` (saturation at the `i32` bounds is
outside the small coordinate ranges the renderers handle). -/
def ratTrunc (q : ℚ) : Int :=
  Int.tdiv q.num (q.den : Int)

/-- `f32::ceil` followed by `as i32`. -/
def ratCeil (q : ℚ) : Int :=
  -(Int.fdiv (-q.num) (q.den : Int))

/-- `f32 as u8` (saturating cast). -/
def f32AsU8 (q : ℚ) : Nat :=
  if q < 0 then 0 else if (255 : ℚ) ≤ q then 255 else (ratTrunc q).toNat

/-- `f32 as u32` (saturating cast). -/
def f32AsU32 (q : ℚ) : Nat :=
  if q < 0 then 0
  else if ((4294967295 : ℚ)) ≤ q then 4294967295
  else (ratTrunc q).toNat

/-- Write the four bytes of a colour at `offset` (the guarded
`pixels[offset..offset+3] = colour` stores). -/
def setPixel4 (pixels : List Nat) (offset : Nat) (c : Nat × Nat × Nat × Nat) : List Nat :=
  ((((pixels.set offset c.1).set (offset + 1) c.2.1).set
      (offset + 2) c.2.2.1).set (offset + 3) c.2.2.2)

/-- `lo..=hi` over `Int` (empty when `hi < lo`). -/
def intRange (lo hi : Int) : List Int :=
  (List.range (hi + 1 - lo).toNat).map (fun k => lo + k)

/-! ## src/cursor/vector/renderer/lottie.rs -/

/-- A serde_json `Value`. -/
inductive Json where
  | null
  | bool (b : Bool)
  | num (v : ℚ)
  | str (s : String)
  | arr (items : List Json)
  | obj (fields : List (String × Json))

/-- `Value::get(key)` (object member lookup, `None` on other variants). -/
def Json.get (j : Json) (key : String) : Option Json :=
  match j with
  | .obj fields => lookupAssoc key fields
  | _ => none

def Json.as_f64 : Json → Option ℚ
  | .num v => some v
  | _ => none

def Json.as_array : Json → Option (List Json)
  | .arr items => some items
  | _ => none

def Json.as_str : Json → Option String
  | .str s => some s
  | _ => none

def Json.as_object : Json → Option (List (String × Json))
  | .obj fields => some fields
  | _ => none

/-- `RenderPrimitive::Path` (the enum's single variant). -/
structure RenderPrimitive where
  vertices : List (ℚ × ℚ)
  indices : List Nat
  fill : Option (Nat × Nat × Nat × Nat)
  stroke : Option (ℚ × (Nat × Nat × Nat × Nat))

/-- `LottieRenderer::parse_shape_path`: one 4-vertex / 2-triangle primitive
from the first keyframe value of a `"sh"` item (the `frame` argument is
unused in the source). -/
def parse_shape_path (shape : Json) (_frame : ℚ) : List RenderPrimitive :=
  match shape.get ("ks") with
  | none => []
  | some path_data =>
    match path_data.as_object with
    | none => []
    | some ks =>
      match lookupAssoc ("a") ks with
      | none => []
      | some a =>
        match a.as_array with
        | none => []
        | some _anchors =>
          match lookupAssoc ("k") ks with
          | none => []
          | some k =>
            match k.as_array with
            | none => []
            | some values =>
              match values with
              | [] => []
              | v0 :: _ =>
                match v0.as_array with
                | none => []
                | some k_value =>
                  if 6 ≤ k_value.length then
                    let coord := fun (i : Nat) =>
                      (((k_value.get? i).bind Json.as_f64).getD 0)
                    [{ vertices := [(coord 0, coord 1), (coord 2, coord 3),
                        (coord 4, coord 5), (coord 6, coord 7)],
                       indices := [0, 1, 2, 2, 1, 3],
                       fill := none,
                       stroke := none }]
                  else []

/-- The `"fl"` arm of `parse_layer`: give every fill-less accumulated
primitive this fill colour (the source rebuilds the primitive with
`stroke: None`). -/
def applyFill (color : Nat × Nat × Nat × Nat) (prims : List RenderPrimitive) :
    List RenderPrimitive :=
  prims.map fun p =>
    match p.fill with
    | none => { vertices := p.vertices, indices := p.indices,
                fill := some color, stroke := none }
    | some _ => p

/-- The `"st"` arm of `parse_layer`: give every stroke-less accumulated
primitive this stroke (the source rebuilds the primitive with
`fill: None`). -/
def applyStroke (stroke_width : ℚ) (color : Nat × Nat × Nat × Nat)
    (prims : List RenderPrimitive) : List RenderPrimitive :=
  prims.map fun p =>
    match p.stroke with
    | none => { vertices := p.vertices, indices := p.indices,
                fill := none, stroke := some (stroke_width, color) }
    | some _ => p

/-- The colour extraction shared by the `"fl"` and `"st"` arms:
`(c[i].as_f64().unwrap_or(0 or 1) * 255) as u8`. -/
def parseColor (ca : List Json) : Nat × Nat × Nat × Nat :=
  (f32AsU8 ((((ca.get? 0).bind Json.as_f64).getD 0) * 255),
   f32AsU8 ((((ca.get? 1).bind Json.as_f64).getD 0) * 255),
   f32AsU8 ((((ca.get? 2).bind Json.as_f64).getD 0) * 255),
   f32AsU8 ((((ca.get? 3).bind Json.as_f64).getD 1) * 255))

/-- One item of a `"gr"` group inside `parse_layer`. -/
def parse_item (frame : ℚ) (prims : List RenderPrimitive) (item : Json) :
    List RenderPrimitive :=
  match item.get ("ty") with
  | none => prims
  | some ty_j =>
    match ty_j.as_str with
    | none => prims
    | some ty =>
      if ty = ("sh") then prims ++ parse_shape_path item frame
      else if ty = ("fl") then
        match item.get ("c") with
        | none => prims
        | some c =>
          match c.as_array with
          | none => prims
          | some ca =>
            if 4 ≤ ca.length then applyFill (parseColor ca) prims else prims
      else if ty = ("st") then
        match item.get ("c") with
        | none => prims
        | some c =>
          match c.as_array with
          | none => prims
          | some ca =>
            let stroke_width := (((item.get ("w")).bind Json.as_f64).getD 1)
            if 4 ≤ ca.length then applyStroke stroke_width (parseColor ca) prims
            else prims
      else prims

/-- One shape of the layer's `shapes` array (only `"gr"` groups contribute). -/
def parse_shape (frame : ℚ) (prims : List RenderPrimitive) (shape : Json) :
    List RenderPrimitive :=
  match shape.get ("ty") with
  | none => prims
  | some ty_j =>
    match ty_j.as_str with
    | none => prims
    | some ty =>
      if ty = ("gr") then
        match shape.get ("it") with
        | none => prims
        | some items =>
          match items.as_array with
          | none => prims
          | some items_array => items_array.foldl (parse_item frame) prims
      else prims

/-- `LottieRenderer::parse_layer`. -/
def parse_layer (layer : Json) (frame : ℚ) : List RenderPrimitive :=
  match layer.get ("shapes") with
  | none => []
  | some shapes =>
    match shapes.as_array with
    | none => []
    | some shapes_array => shapes_array.foldl (parse_shape frame) []

/-- `LottieRenderer::point_in_triangle` (barycentric inside test; the `f32`
divisions are exact rationals here, and a degenerate zero determinant is
outside the model). -/
def point_in_triangle (px py : Int) (v0 v1 v2 : Int × Int) : Bool :=
  let det : Int := (v1.2 - v2.2) * (v0.1 - v2.1) + (v2.1 - v1.1) * (v0.2 - v2.2)
  let lambda1 : ℚ :=
    (((v1.2 - v2.2) * (px - v2.1) + (v2.1 - v1.1) * (py - v2.2) : Int) : ℚ) / (det : ℚ)
  let lambda2 : ℚ :=
    (((v2.2 - v0.2) * (px - v2.1) + (v0.1 - v2.1) * (py - v2.2) : Int) : ℚ) / (det : ℚ)
  let lambda3 : ℚ := 1 - lambda1 - lambda2
  decide (0 ≤ lambda1) && decide (0 ≤ lambda2) && decide (0 ≤ lambda3)

/-- `LottieRenderer::rasterize_triangle`: bounding-box scan with the
barycentric inside test, writes clipped to the canvas. -/
def rasterize_triangle (verts : (ℚ × ℚ) × (ℚ × ℚ) × (ℚ × ℚ))
    (color : Nat × Nat × Nat × Nat) (pixels : List Nat)
    (width height : Int) (scale : Int) : List Nat :=
  let v0 : Int × Int := (ratTrunc (verts.1.1 * scale), ratTrunc (verts.1.2 * scale))
  let v1 : Int × Int := (ratTrunc (verts.2.1.1 * scale), ratTrunc (verts.2.1.2 * scale))
  let v2 : Int × Int := (ratTrunc (verts.2.2.1 * scale), ratTrunc (verts.2.2.2 * scale))
  let min_x := max (min (min v0.1 v1.1) v2.1) 0
  let max_x := min (max (max v0.1 v1.1) v2.1) (width - 1)
  let min_y := max (min (min v0.2 v1.2) v2.2) 0
  let max_y := min (max (max v0.2 v1.2) v2.2) (height - 1)
  (intRange min_y max_y).foldl
    (fun rowBuf y =>
      (intRange min_x max_x).foldl
        (fun buf x =>
          if point_in_triangle x y v0 v1 v2 then
            let offset := (y * width + x) * 4
            if offset.toNat + 4 ≤ buf.length then setPixel4 buf offset.toNat color
            else buf
          else buf)
        rowBuf)
    pixels

/-- `indices.chunks(3)`, keeping only the complete chunks the source's
`chunk.len() == 3` test accepts. -/
def chunks3 : List Nat → List (Nat × Nat × Nat)
  | a :: b :: c :: rest => (a, b, c) :: chunks3 rest
  | _ => []

/-- `LottieRenderer::render_primitive`: filled triangles, then a stamped
disc of radius `strokeWidth·scale/2` at every path vertex. -/
def render_primitive (prim : RenderPrimitive) (pixels : List Nat)
    (width height : Int) (scale : Int) : List Nat :=
  let pixels :=
    match prim.fill with
    | none => pixels
    | some color =>
      (chunks3 prim.indices).foldl
        (fun buf chunk =>
          match prim.vertices.get? chunk.1, prim.vertices.get? chunk.2.1,
              prim.vertices.get? chunk.2.2 with
          | some v0, some v1, some v2 =>
            rasterize_triangle (v0, v1, v2) color buf width height scale
          | _, _, _ => buf)
        pixels
  match prim.stroke with
  | none => pixels
  | some (stroke_width, color) =>
    prim.vertices.foldl
      (fun vertBuf v =>
        let x := ratTrunc (v.1 * scale)
        let y := ratTrunc (v.2 * scale)
        let radius := ratTrunc (stroke_width * scale / 2)
        (intRange (-radius) radius).foldl
          (fun rowBuf dy =>
            (intRange (-radius) radius).foldl
              (fun buf dx =>
                if dx * dx + dy * dy ≤ radius * radius then
                  let px := x + dx
                  let py := y + dy
                  if 0 ≤ px ∧ px < width ∧ 0 ≤ py ∧ py < height then
                    let offset := (py * width + px) * 4
                    if offset.toNat + 4 ≤ buf.length then
                      setPixel4 buf offset.toNat color
                    else buf
                  else buf
                else buf)
              rowBuf)
          vertBuf)
      pixels

structure LottieRenderer where
  cursor_id : String
  lottie_data : String
  hotspot : Option (Int × Int)
  base_size : Nat
  width : ℚ
  height : ℚ
  frame_rate : ℚ
  total_frames : Nat
  composition : Json

/-- `LottieRenderer::new`, with serde_json parsing supplied as an oracle. -/
def LottieRenderer.new (jsonParse : String → Option Json)
    (cursor_id lottie_data : String) (hotspot : Option (Int × Int))
    (base_size : Nat) : Except Unit LottieRenderer :=
  match jsonParse lottie_data with
  | none => .error ()
  | some json =>
    .ok { cursor_id, lottie_data, hotspot, base_size,
          width := (((json.get ("w")).bind Json.as_f64).getD 24),
          height := (((json.get ("h")).bind Json.as_f64).getD 24),
          frame_rate := (((json.get ("fr")).bind Json.as_f64).getD 60),
          total_frames := f32AsU32 ((((json.get ("op")).bind Json.as_f64).getD 0)),
          composition := json }

/-- `LottieRenderer::render_frame_to_buffer` (infallible in the source:
its only exit is `Ok`). -/
def LottieRenderer.render_frame_to_buffer (r : LottieRenderer) (frame : Nat)
    (scale : Int) : RenderedFrameData :=
  let frame_float : ℚ := (frame : ℚ)
  let scaled_width : Int := ratCeil (r.width * (scale : ℚ))
  let scaled_height : Int := ratCeil (r.height * (scale : ℚ))
  let size : Nat := scaled_width.toNat * scaled_height.toNat
  let pixels0 : List Nat := List.replicate (size * 4) 0
  let pixels :=
    match r.composition.get ("layers") with
    | none => pixels0
    | some layers =>
      match layers.as_array with
      | none => pixels0
      | some layers_array =>
        layers_array.foldl
          (fun buf layer =>
            (parse_layer layer frame_float).foldl
              (fun b prim => render_primitive prim b scaled_width scaled_height scale)
              buf)
          pixels0
  let hotspot :=
    match r.hotspot with
    | some (hx, hy) => (hx * scale, hy * scale)
    | none => (0, 0)
  { pixels, width := scaled_width, height := scaled_height, scale,
    hotspot := pointToPhysical hotspot scale }

/-- `LottieRenderer::render_frame` (the `VectorRenderer` impl): the frame
index is taken modulo `total_frames` when positive, else 0. -/
def LottieRenderer.render_frame (r : LottieRenderer) (frame : Nat) (scale : Int) :
    Except Unit RenderedFrameData :=
  let actual_frame := if 0 < r.total_frames then frame % r.total_frames else 0
  .ok (r.render_frame_to_buffer actual_frame scale)

/-! ## src/cursor/vector/renderer/svg.rs -/

/-- The parsed `usvg::Tree` together with the document-rendering capability
(`resvg::render` into a pixmap at a scale), both external to the repo. -/
structure SvgTree where
  width : ℚ
  height : ℚ
  pixmapData : Int → List Nat

structure SvgRenderer where
  cursor_id : String
  tree : SvgTree
  hotspot : Option (Int × Int)
  base_size : Nat
  width : ℚ
  height : ℚ

/-- `SvgRenderer::new`, with usvg parsing supplied as an oracle. -/
def SvgRenderer.new (svgParse : String → Option SvgTree)
    (cursor_id svg_data : String) (hotspot : Option (Int × Int))
    (base_size : Nat) : Except Unit SvgRenderer :=
  match svgParse svg_data with
  | none => .error ()
  | some tree =>
    .ok { cursor_id, tree, hotspot, base_size,
          width := tree.width, height := tree.height }

/-- `pixmap.data().chunks(4)`, complete chunks only (the pixmap's data
length is always `4·w·h`, so no partial chunk can occur). -/
def chunks4 : List Nat → List (Nat × Nat × Nat × Nat)
  | a :: b :: c :: d :: rest => (a, b, c, d) :: chunks4 rest
  | _ => []

/-- The enumerated channel-swizzling copy loop of
`SvgRenderer::render_to_buffer` (RGBA pixmap bytes into BGRA order). -/
def convertChannels : List Nat → List (Nat × Nat × Nat × Nat) → Nat → List Nat
  | dst, [], _ => dst
  | dst, (b0, b1, b2, b3) :: rest, i =>
    let dst := if i * 4 + 4 ≤ dst.length then setPixel4 dst (i * 4) (b2, b1, b0, b3) else dst
    convertChannels dst rest (i + 1)

/-- `SvgRenderer::render_to_buffer`: fails exactly when `Pixmap::new`
rejects the scaled size (a non-positive dimension). -/
def SvgRenderer.render_to_buffer (r : SvgRenderer) (scale : Int) :
    Except Unit RenderedFrameData :=
  let scaled_width : Int := ratCeil (r.width * (scale : ℚ))
  let scaled_height : Int := ratCeil (r.height * (scale : ℚ))
  let size : Nat := scaled_width.toNat * scaled_height.toNat
  let pixels0 : List Nat := List.replicate (size * 4) 0
  if scaled_width ≤ 0 ∨ scaled_height ≤ 0 then .error ()
  else
    let pixmap_data := r.tree.pixmapData scale
    let pixels := convertChannels pixels0 (chunks4 pixmap_data) 0
    let hotspot :=
      match r.hotspot with
      | some (hx, hy) => (hx * scale, hy * scale)
      | none => (0, 0)
    .ok { pixels, width := scaled_width, height := scaled_height, scale,
          hotspot := pointToPhysical hotspot scale }

/-- `SvgRenderer::render_frame` (the `VectorRenderer` impl): ignores the
frame index. -/
def SvgRenderer.render_frame (r : SvgRenderer) (frame : Nat) (scale : Int) :
    Except Unit RenderedFrameData :=
  let _ := frame
  r.render_to_buffer scale

/-! ### C2: the returned hotspot -/

def svgTreeCE : SvgTree :=
  { width := 8, height := 8, pixmapData := fun _ => [] }

/-- A `SvgRenderer` with declared hotspot `(4, 4)` over an 8×8 document. -/
def svgCE : SvgRenderer :=
  { cursor_id := ("default"), tree := svgTreeCE, hotspot := some (4, 4),
    base_size := 24, width := 8, height := 8 }

lemma svgCE_from_new :
    SvgRenderer.new (fun _ => some svgTreeCE) ("default") ("svg") (some (4, 4)) 24 =
      .ok svgCE := rfl

lemma ratCeil_natCast (n : ℕ) : ratCeil ((n : ℚ)) = (n : Int) := by
  simp [ratCeil, Rat.num_natCast, Rat.den_natCast, Int.fdiv_one]

lemma ceil16 : ratCeil ((8 : ℚ) * ((2 : Int) : ℚ)) = 16 := by
  have h : (8 : ℚ) * ((2 : Int) : ℚ) = ((16 : ℕ) : ℚ) := by push_cast; norm_num
  rw [h, ratCeil_natCast]
  rfl

lemma svgCE_render :
    SvgRenderer.render_frame svgCE 0 2 =
      .ok { pixels := List.replicate 1024 0, width := 16, height := 16,
            scale := 2, hotspot := (16, 16) } := by
  show SvgRenderer.render_to_buffer svgCE 2 = _
  unfold SvgRenderer.render_to_buffer
  simp only [svgCE, svgTreeCE]
  rw [show ratCeil ((8 : ℚ) * ((2 : Int) : ℚ)) = 16 from ceil16]
  norm_num [pointToPhysical, chunks4, convertChannels]
  decide

/-- C2 fails on the code: the renderer built with declared hotspot `(4, 4)`
returns, at scale 2, the hotspot `(16, 16)` and not `(4·2, 4·2) = (8, 8)` —
the logical hotspot is scaled once when built and once more by the
conversion to physical coordinates. -/
theorem c2_hotspot_counterexample :
    (SvgRenderer.render_frame svgCE 0 2).map RenderedFrameData.hotspot ≠
      .ok (4 * 2, 4 * 2) := by
  rw [svgCE_render]
  simp [Except.map]

/-- C2 (amended): for both renderers, a declared hotspot `(hx, hy)` comes
back as `(hx·scale·scale, hy·scale·scale)` in the rendered frame (scaled by
`scale` twice), and an undeclared hotspot comes back as the origin. -/
theorem render_hotspot_scaled (sr : SvgRenderer) (lr : LottieRenderer) (hx hy : Int)
    (frame : Nat) (scale : Int) (fd gd : RenderedFrameData) :
    (sr.hotspot = some (hx, hy) → sr.render_frame frame scale = .ok fd →
      fd.hotspot = (hx * scale * scale, hy * scale * scale)) ∧
    (sr.hotspot = none → sr.render_frame frame scale = .ok fd →
      fd.hotspot = (0, 0)) ∧
    (lr.hotspot = some (hx, hy) → lr.render_frame frame scale = .ok gd →
      gd.hotspot = (hx * scale * scale, hy * scale * scale)) ∧
    (lr.hotspot = none → lr.render_frame frame scale = .ok gd →
      gd.hotspot = (0, 0)) := by
  refine ⟨?_, ?_, ?_, ?_⟩
  · intro hh hr
    simp only [SvgRenderer.render_frame, SvgRenderer.render_to_buffer] at hr
    split at hr
    · exact absurd hr (by simp)
    · rw [Except.ok.injEq] at hr
      subst hr
      simp [hh, pointToPhysical]
  · intro hh hr
    simp only [SvgRenderer.render_frame, SvgRenderer.render_to_buffer] at hr
    split at hr
    · exact absurd hr (by simp)
    · rw [Except.ok.injEq] at hr
      subst hr
      simp [hh, pointToPhysical]
  · intro hh hr
    simp only [LottieRenderer.render_frame] at hr
    rw [Except.ok.injEq] at hr
    subst hr
    simp only [LottieRenderer.render_frame_to_buffer]
    simp [hh, pointToPhysical]
  · intro hh hr
    simp only [LottieRenderer.render_frame] at hr
    rw [Except.ok.injEq] at hr
    subst hr
    simp only [LottieRenderer.render_frame_to_buffer]
    simp [hh, pointToPhysical]

/-- A `LottieRenderer` with declared hotspot `(1, 2)` and 2 total frames. -/
def lottieCE : LottieRenderer :=
  { cursor_id := ("wait"), lottie_data := ("x"), hotspot := some (1, 2),
    base_size := 24, width := 4, height := 4, frame_rate := 30,
    total_frames := 2, composition := Json.obj [] }

def lottieFD : RenderedFrameData :=
  lottieCE.render_frame_to_buffer 0 2

def svgFD : RenderedFrameData :=
  { pixels := List.replicate 1024 0, width := 16, height := 16,
    scale := 2, hotspot := (16, 16) }

theorem render_hotspot_scaled_witness :
    svgFD.hotspot = (4 * 2 * 2, 4 * 2 * 2) ∧
    lottieFD.hotspot = (1 * 2 * 2, 2 * 2 * 2) :=
  ⟨(render_hotspot_scaled svgCE lottieCE 4 4 0 2 svgFD lottieFD).1 rfl svgCE_render,
   (render_hotspot_scaled svgCE lottieCE 1 2 0 2 svgFD lottieFD).2.2.1 rfl rfl⟩

/-! ### C7: lottie frame selection -/

/-- C7: when the document's total frame count (`op`) is positive,
`render_frame(f, scale)` renders frame `f mod total_frames` (hence
`render_frame(f) = render_frame(f + total_frames)`), and when the total
frame count is 0 it renders frame 0 for every requested frame. -/
theorem lottie_render_frame_mod (r : LottieRenderer) (frame : Nat) (scale : Int) :
    (0 < r.total_frames →
      r.render_frame frame scale =
        .ok (r.render_frame_to_buffer (frame % r.total_frames) scale) ∧
      r.render_frame frame scale = r.render_frame (frame + r.total_frames) scale) ∧
    (r.total_frames = 0 →
      r.render_frame frame scale = .ok (r.render_frame_to_buffer 0 scale)) := by
  constructor
  · intro h
    constructor
    · unfold LottieRenderer.render_frame
      simp [h]
    · unfold LottieRenderer.render_frame
      simp [h, Nat.add_mod_right]
  · intro h
    unfold LottieRenderer.render_frame
    simp [h]

/-- A `LottieRenderer` whose document declares `op = 0`. -/
def lottieZero : LottieRenderer :=
  { cursor_id := ("wait"), lottie_data := ("x"), hotspot := none,
    base_size := 24, width := 4, height := 4, frame_rate := 30,
    total_frames := 0, composition := Json.obj [] }

theorem lottie_render_frame_mod_witness :
    lottieCE.render_frame 5 2 =
      .ok (lottieCE.render_frame_to_buffer (5 % lottieCE.total_frames) 2) ∧
    lottieCE.render_frame 5 2 = lottieCE.render_frame (5 + lottieCE.total_frames) 2 ∧
    lottieZero.render_frame 7 1 = .ok (lottieZero.render_frame_to_buffer 0 1) :=
  ⟨((lottie_render_frame_mod lottieCE 5 2).1 (by decide)).1,
   ((lottie_render_frame_mod lottieCE 5 2).1 (by decide)).2,
   (lottie_render_frame_mod lottieZero 7 1).2 rfl⟩

/-! ## src/cursor/vector/store.rs -/

/-- The `Rc<dyn VectorRenderer>` handle returned by the store. -/
inductive Renderer where
  | svg (r : SvgRenderer)
  | lottie (r : LottieRenderer)

structure VectorCursorStore where
  base_path : String
  config : CursorThemeConfig
  base_size : Nat

/-- The two per-format renderer caches (interior mutability of the store,
modelled by explicit state passing). -/
structure StoreCaches where
  svg_cache : List (String × SvgRenderer)
  lottie_cache : List (String × LottieRenderer)

/-- `PathBuf::join` for the relative source files the configs use. -/
def pathJoin (base file : String) : String :=
  base ++ ("/") ++ file

/-- `VectorCursorStore::load_svg_renderer`; also reports the file paths it
read (`fs::read_to_string` calls), so that re-reads are observable. -/
def VectorCursorStore.load_svg_renderer (readFile : String → Option String)
    (svgParse : String → Option SvgTree) (st : VectorCursorStore)
    (cursor_id : String) (cursor_def : CursorDefinition) :
    Except Unit SvgRenderer × List String :=
  let file_path := pathJoin st.base_path cursor_def.file
  match readFile file_path with
  | none => (.error (), [file_path])
  | some svg_data =>
    (SvgRenderer.new svgParse cursor_id svg_data cursor_def.hotspot st.base_size,
      [file_path])

/-- `VectorCursorStore::load_lottie_renderer`, as for SVG. -/
def VectorCursorStore.load_lottie_renderer (readFile : String → Option String)
    (jsonParse : String → Option Json) (st : VectorCursorStore)
    (cursor_id : String) (cursor_def : CursorDefinition) :
    Except Unit LottieRenderer × List String :=
  let file_path := pathJoin st.base_path cursor_def.file
  match readFile file_path with
  | none => (.error (), [file_path])
  | some lottie_data =>
    (LottieRenderer.new jsonParse cursor_id lottie_data cursor_def.hotspot st.base_size,
      [file_path])

/-- `VectorCursorStore::get_renderer`: per-format look-aside cache; on a
miss the renderer is constructed from the source file and inserted. The
third component lists the file reads the call performed. -/
def VectorCursorStore.get_renderer (readFile : String → Option String)
    (svgParse : String → Option SvgTree) (jsonParse : String → Option Json)
    (st : VectorCursorStore) (caches : StoreCaches) (cursor_id : String) :
    Except Unit Renderer × StoreCaches × List String :=
  match st.config.get_cursor cursor_id with
  | none => (.error (), caches, [])
  | some cursor_def =>
    match cursor_def.format with
    | .Svg =>
      match lookupAssoc cursor_id caches.svg_cache with
      | some cached => (.ok (.svg cached), caches, [])
      | none =>
        match st.load_svg_renderer readFile svgParse cursor_id cursor_def with
        | (.error _, reads) => (.error (), caches, reads)
        | (.ok renderer, reads) =>
          (.ok (.svg renderer),
            { caches with svg_cache := (cursor_id, renderer) :: caches.svg_cache },
            reads)
    | .Lottie =>
      match lookupAssoc cursor_id caches.lottie_cache with
      | some cached => (.ok (.lottie cached), caches, [])
      | none =>
        match st.load_lottie_renderer readFile jsonParse cursor_id cursor_def with
        | (.error _, reads) => (.error (), caches, reads)
        | (.ok renderer, reads) =>
          (.ok (.lottie renderer),
            { caches with lottie_cache := (cursor_id, renderer) :: caches.lottie_cache },
            reads)

/-- The renderer handle sits in the cache of its format. -/
def rendererCached (caches : StoreCaches) (cursor_id : String) : Renderer → Prop
  | .svg s => lookupAssoc cursor_id caches.svg_cache = some s
  | .lottie l => lookupAssoc cursor_id caches.lottie_cache = some l

/-- C9: after one successful `get_renderer(id)` call, a second call with the
same id returns the very renderer the first call cached (which sits in the
appropriate cache), performs no file read, and leaves the caches unchanged. -/
theorem get_renderer_cache_hit (readFile : String → Option String)
    (svgParse : String → Option SvgTree) (jsonParse : String → Option Json)
    (st : VectorCursorStore) (caches : StoreCaches) (cursor_id : String)
    (r : Renderer) (caches' : StoreCaches) (reads : List String)
    (h : VectorCursorStore.get_renderer readFile svgParse jsonParse st caches cursor_id =
      (.ok r, caches', reads)) :
    VectorCursorStore.get_renderer readFile svgParse jsonParse st caches' cursor_id =
      (.ok r, caches', []) ∧
    rendererCached caches' cursor_id r := by
  unfold VectorCursorStore.get_renderer at h ⊢
  rcases hc : st.config.get_cursor cursor_id with _ | d
  · simp only [hc] at h
    exact absurd h (by simp)
  · simp only [hc] at h ⊢
    rcases hfmt : d.format with _ | _
    · simp only [hfmt] at h ⊢
      rcases hl : lookupAssoc cursor_id caches.svg_cache with _ | cached
      · simp only [hl] at h
        rcases hload : st.load_svg_renderer readFile svgParse cursor_id d with ⟨res, reads0⟩
        simp only [hload] at h
        rcases res with _ | renderer
        · exact absurd h (by simp)
        · simp only [Prod.mk.injEq, Except.ok.injEq] at h
          obtain ⟨hr, hcaches, -⟩ := h
          subst hr
          subst hcaches
          constructor
          · simp [lookupAssoc]
          · simp [rendererCached, lookupAssoc]
      · simp only [hl] at h
        simp only [Prod.mk.injEq, Except.ok.injEq] at h
        obtain ⟨hr, hcaches, -⟩ := h
        subst hr
        subst hcaches
        constructor
        · simp [hl]
        · simp [rendererCached, hl]
    · simp only [hfmt] at h ⊢
      rcases hl : lookupAssoc cursor_id caches.lottie_cache with _ | cached
      · simp only [hl] at h
        rcases hload : st.load_lottie_renderer readFile jsonParse cursor_id d with ⟨res, reads0⟩
        simp only [hload] at h
        rcases res with _ | renderer
        · exact absurd h (by simp)
        · simp only [Prod.mk.injEq, Except.ok.injEq] at h
          obtain ⟨hr, hcaches, -⟩ := h
          subst hr
          subst hcaches
          constructor
          · simp [lookupAssoc]
          · simp [rendererCached, lookupAssoc]
      · simp only [hl] at h
        simp only [Prod.mk.injEq, Except.ok.injEq] at h
        obtain ⟨hr, hcaches, -⟩ := h
        subst hr
        subst hcaches
        constructor
        · simp [hl]
        · simp [rendererCached, hl]

/-- Witness data for C9: a store with one SVG cursor, oracles that succeed,
and the cache state the first call produces. -/
def cfg9 : CursorThemeConfig :=
  { cursors := [(("a"), ⟨.Svg, ("a.svg"), none, none⟩)], transitions := [] }

def st9 : VectorCursorStore :=
  { base_path := ("/theme"), config := cfg9, base_size := 24 }

def readFile9 : String → Option String := fun _ => some ("data")

def svgParse9 : String → Option SvgTree := fun _ => some svgTreeCE

def jsonParse9 : String → Option Json := fun _ => none

def r9 : SvgRenderer :=
  { cursor_id := ("a"), tree := svgTreeCE, hotspot := none, base_size := 24,
    width := 8, height := 8 }

def caches9 : StoreCaches :=
  { svg_cache := [(("a"), r9)], lottie_cache := [] }

theorem get_renderer_cache_hit_witness :
    VectorCursorStore.get_renderer readFile9 svgParse9 jsonParse9 st9 caches9 ("a") =
      (.ok (.svg r9), caches9, []) ∧
    lookupAssoc ("a") caches9.svg_cache = some r9 :=
  have h := get_renderer_cache_hit readFile9 svgParse9 jsonParse9 st9
    ⟨[], []⟩ ("a") (.svg r9) caches9 [("/theme/a.svg")] rfl
  ⟨h.1, h.2⟩
